import Mathlib

/-!
Shallow embedding of the SDR discovery / frequency-role assignment engine of
`adsb-feeder-image` (`sdr.py`: classes `SDR` and `SDRDevices`, plus the
override loop of `app.py:sdr_info`).

Modelling conventions:
* Python strings are Lean `String`s; Python `None` for a string-valued slot is
  modelled by `Option String` (`none` = `None`, `some s` = the str `s`).
* The two external commands (`lsusb` and `lsusb -s <addr> -v`) are modelled by
  a `World` record: each command either raises (`Except.error`) — covering
  `subprocess.SubprocessError` — or returns its captured stdout text.
* The two regular expressions of the source are modelled character-by-character
  with the exact backtracking semantics of `re.search` on these patterns
  (leftmost match position; the greedy `+` runs coincide with maximal spans
  because no run's character class overlaps the literal that follows it).
* `datetime.now()` values are integers (seconds); `timedelta(seconds=5.0)` is
  the integer `5`.  Core `String` operations that the kernel cannot reduce
  (`splitOn`, `trim`, `take`) are replaced by structurally recursive
  equivalents over `List Char`, so every definition evaluates under `decide`.
-/

/-- Python truthiness of a string-or-None value: `None` and `""` are falsy. -/
def pyTruthy : Option String → Bool
  | none => false
  | some s => s != ""

/-- Split a character list at every `'\n'`. -/
def splitNl : List Char → List (List Char)
  | [] => [[]]
  | c :: cs =>
    if c = '\n' then [] :: splitNl cs
    else
      match splitNl cs with
      | h :: t => (c :: h) :: t
      | [] => [[c]]

/-- Python `str.splitlines` for `\n`-separated text (the only separator that
occurs in `lsusb` output): split on `\n` and drop the segment after a final
newline, so `"".splitlines() = []` and `"a\n".splitlines() = ["a"]`. -/
def pySplitlines (s : String) : List String :=
  let parts := splitNl s.toList
  (match parts.reverse with
   | [] :: rest => rest.reverse
   | l => l.reverse).map String.mk

/-- Python `str.strip()`: drop whitespace from both ends. -/
def pyStrip (s : String) : String :=
  String.mk
    (((s.toList.dropWhile Char.isWhitespace).reverse.dropWhile Char.isWhitespace).reverse)

/-- The external command world: `lsusb` (the listing command of
`SDRDevices.get_sdr_info`) and `lsusb -s <address> -v` (the per-device verbose
query of `SDR._serial`), each either raising or returning stdout text. -/
structure World where
  lsusb : Except Unit String
  lsusbV : String → Except Unit String

/-- `[0-9a-fA-F]` of the address pattern. -/
def isHexChar (c : Char) : Bool :=
  c.isDigit || ('a' ≤ c && c ≤ 'f') || ('A' ≤ c && c ≤ 'F')

/-- Attempt to match `Bus ([0-9a-fA-F]+) Device ([0-9a-fA-F]+): ID <pidvid>`
at the start of the character list, returning the two captured groups.  The
greedy `[0-9a-fA-F]+` runs are maximal spans: the literal that follows each
(`" "` resp. `":"`) is never a hex digit, so regex backtracking cannot
produce a shorter run. -/
def busMatchAt (pidvid : List Char) (cs : List Char) : Option (List Char × List Char) :=
  if cs.take 4 = "Bus ".toList then
    let r0 := cs.drop 4
    let (g1, r1) := r0.span isHexChar
    if g1 = [] then none
    else if r1.take 8 = " Device ".toList then
      let r2 := r1.drop 8
      let (g2, r3) := r2.span isHexChar
      if g2 = [] then none
      else if r3.take 5 = ": ID ".toList then
        if (r3.drop 5).take pidvid.length = pidvid then some (g1, g2) else none
      else none
    else none
  else none

/-- `re.search` of the address pattern: try each position left to right. -/
def busSearch (pidvid : List Char) : List Char → Option (List Char × List Char)
  | [] => none
  | c :: cs =>
    match busMatchAt pidvid (c :: cs) with
    | some g => some g
    | none => busSearch pidvid cs

/-- `SDRDevices._get_address_for_pid_vid` (sdr.py lines 115-122): search the
line for `Bus (hex+) Device (hex+): ID <pidvid>` (the interpolated `pidvid`
contains only hex digits and `:`, so it is a literal) and return
`"<bus>:<device>"`, or `""` when there is no match. -/
def get_address_for_pid_vid (pidvid line : String) : String :=
  match busSearch pidvid.toList line.toList with
  | some (g1, g2) => String.mk g1 ++ ":" ++ String.mk g2
  | none => ""

/-- Attempt to match `iSerial\s+\d+\s+(.*)$` at the start of the character
list, returning the capture group (the rest of the line after the second
maximal whitespace run; `$` is the end of the line since lines carry no
newline, and the greedy `\s+`/`\d+` runs are maximal spans because whitespace
is never a digit and `(.*)$` always succeeds). -/
def iSerialMatchAt (cs : List Char) : Option (List Char) :=
  if cs.take 7 = "iSerial".toList then
    let r0 := cs.drop 7
    let (w1, r1) := r0.span Char.isWhitespace
    if w1 = [] then none
    else
      let (d1, r2) := r1.span Char.isDigit
      if d1 = [] then none
      else
        let (w2, r3) := r2.span Char.isWhitespace
        if w2 = [] then none else some r3
  else none

/-- `re.search` of the serial pattern: try each position left to right. -/
def iSerialSearch : List Char → Option (List Char)
  | [] => none
  | c :: cs =>
    match iSerialMatchAt (c :: cs) with
    | some g => some g
    | none => iSerialSearch cs

/-- `re.search(r"iSerial\s+\d+\s+(.*)$", line)`, returning `group(1)`. -/
def iSerialGroup (line : String) : Option String :=
  (iSerialSearch line.toList).map String.mk

/-- The loop body of the scan in `SDR._serial` (sdr.py lines 29-32): each
matching line overwrites `_serial_probed` with `group(1).strip()`. -/
def probe_upd (acc : Option String) (line : String) : Option String :=
  match iSerialGroup line with
  | some v => some (pyStrip v)
  | none => acc

/-- The `SDR` class (sdr.py lines 10-14): `_type`, `_address` and the probe
cache `_serial_probed` (initialised to `None`). -/
structure SDR where
  type_ : String
  address : String
  serialProbed : Option String
deriving DecidableEq

/-- The `SDR._serial` property (sdr.py lines 16-37) as one step of a state
machine.  `query` is the outcome of `lsusb -s <address> -v`.  Returns the
value the property returns, the instance state afterwards, and whether the
external query command was invoked.  Faithful points: the cache check is the
*truthiness* of `_serial_probed` (so `None` and `""` re-probe); on
`SubprocessError` the property returns `""`; a scan finding nothing leaves
`_serial_probed` at its prior value, and a non-`"sdrplay"` device then
returns that prior value — `none` (Python `None`) on a fresh instance, not
`""` (the trailing `return ""` of the source at line 37 is unreachable). -/
def SDR.serialStep (s : SDR) (query : Except Unit String) : Option String × SDR × Bool :=
  if pyTruthy s.serialProbed then (s.serialProbed, s, false)
  else
    match query with
    | .error _ => (some "", s, true)
    | .ok output =>
      let probed := (pySplitlines output).foldl probe_upd s.serialProbed
      let s' : SDR := ⟨s.type_, s.address, probed⟩
      if !pyTruthy probed && s.type_ == "sdrplay" then
        (some "SDRplay w/o serial", s', true)
      else (probed, s', true)

/-- The value `sdr._serial` yields in world `w`.  Every read of `_serial` is
value-deterministic for a fixed world (cf. `probe_fold_idem`: re-running the
scan from its own result is the identity, so repeated reads agree whether or
not the result was cached), so reads throughout the registry are modelled by
this function. -/
def SDR.serialVal (w : World) (s : SDR) : Option String :=
  (s.serialStep (w.lsusbV s.address)).1

/-- `SDR.__eq__` (sdr.py lines 48-51): two devices are equal iff their
`_json` dictionaries — type, address and resolved serial — are equal. -/
def sdrBEq (w : World) (a b : SDR) : Bool :=
  a.type_ == b.type_ && a.address == b.address && a.serialVal w == b.serialVal w

/-- The fixed vendor:product table of `get_sdr_info` (sdr.py lines 82-89),
in source order. -/
def pidvids : List String :=
  ["1d50:60a1", "0bda:2838", "0bda:2832", "1df7:2500", "1df7:3000", "1df7:3050"]

/-- The radio kind chosen for a matched identifier (sdr.py lines 93-98):
`pidvid.startswith("1df7")` gives `"sdrplay"`, `"1d50:60a1"` gives
`"airspy"`, everything else `"rtlsdr"`. -/
def kind_for (pidvid : String) : String :=
  if pidvid.toList.take 4 = "1df7".toList then "sdrplay"
  else if pidvid = "1d50:60a1" then "airspy"
  else "rtlsdr"

/-- The membership-guarded append of `get_sdr_info` (sdr.py lines 99-100):
`if candidate not in self.sdrs: self.sdrs.append(candidate)`, where `in`
compares with `SDR.__eq__`. -/
def consider (w : World) (l : List SDR) (c : SDR) : List SDR :=
  if l.any (fun x => sdrBEq w x c) then l else l ++ [c]

/-- The body of the nested loops of `get_sdr_info` (sdr.py lines 90-100) for
one line and one identifier: look for an address; a non-empty (truthy)
address yields a candidate of the matching kind, appended unless an equal
device was already collected. -/
def scan_line (w : World) (l : List SDR) (line pidvid : String) : List SDR :=
  let address := get_address_for_pid_vid pidvid line
  if address = "" then l else consider w l ⟨kind_for pidvid, address, none⟩

/-- The enumeration pass of `get_sdr_info` (sdr.py lines 79-100): starting
from `self.sdrs = []`, scan every line of the listing against every known
identifier.  Iterating `io.StringIO` keeps each line's trailing newline, but
neither regex is sensitive to it, so lines are modelled newline-free. -/
def enumerate_sdrs (w : World) (text : String) : List SDR :=
  (pySplitlines text).foldl
    (fun l line => pidvids.foldl (fun l2 pv => scan_line w l2 line pv) l) []

/-- Python `set.add`: append only when not already present. -/
def set_add (l : List (Option String)) (x : Option String) : List (Option String) :=
  if x ∈ l then l else l ++ [x]

/-- One step of the duplicate scan of `get_sdr_info` (sdr.py lines 103-107):
the pair is `(found_serials, duplicates)`. -/
def dup_step (p : List (Option String) × List (Option String)) (ser : Option String) :
    List (Option String) × List (Option String) :=
  if ser ∈ p.1 then (p.1, set_add p.2 ser) else (set_add p.1 ser, p.2)

/-- The duplicate scan of `get_sdr_info` (sdr.py lines 101-107) over the
resolved serials, returning the `duplicates` set. -/
def dup_scan (serials : List (Option String)) : List (Option String) :=
  (serials.foldl dup_step ([], [])).2

/-- Number of occurrences of a serial value in a list of serials. -/
def countOcc (t : Option String) : List (Option String) → Nat
  | [] => 0
  | x :: xs => (if x = t then 1 else 0) + countOcc t xs

/-- The `SDRDevices` registry (sdr.py lines 59-63): the device list, the
duplicated-serials set, and the last-refresh timestamp (seconds). -/
structure SDRDevices where
  sdrs : List SDR
  duplicates : List (Option String)
  last_check : ℤ
deriving DecidableEq

/-- `SDRDevices.__init__` (sdr.py lines 60-63): empty list, empty set, epoch
timestamp. -/
def SDRDevices.init : SDRDevices := ⟨[], [], 0⟩

/-- `SDRDevices.get_sdr_info` (sdr.py lines 71-107).  When `lsusb` raises,
the method prints to stderr and returns *before touching any stored state*
(the early `return` at line 76), so the prior `sdrs` and `duplicates` are
kept; otherwise the device list is rebuilt from the listing and the
duplicates set is recomputed from the devices' serials. -/
def SDRDevices.get_sdr_info (w : World) (st : SDRDevices) : SDRDevices :=
  match w.lsusb with
  | .error _ => st
  | .ok text =>
    let sdrs := enumerate_sdrs w text
    { st with sdrs := sdrs, duplicates := dup_scan (sdrs.map (SDR.serialVal w)) }

/-- `SDRDevices._ensure_populated` (sdr.py lines 109-113).  `now₁` is the
`datetime.now()` of the TTL comparison (line 110) and `now₂` the one stored
afterwards (line 113); the timestamp is advanced whether or not the refresh
succeeded. -/
def SDRDevices.ensure_populated (w : World) (now₁ now₂ : ℤ) (st : SDRDevices) :
    SDRDevices :=
  if now₁ - st.last_check < 5 then st
  else { st.get_sdr_info w with last_check := now₂ }

/-- The frequency-to-serial mapping `{1090: _, 978: _}`; both entries start
as the (truthy-false) empty string. -/
structure Freqs where
  f1090 : Option String
  f978 : Option String
deriving DecidableEq

/-- The loop body of `addresses_per_frequency` (sdr.py lines 133-140): an
airspy claims 1090; an rtlsdr with serial `"1090"`/`"00001090"` claims 1090;
an rtlsdr with serial `"978"`/`"00000978"` claims 978; later devices simply
overwrite earlier assignments. -/
def apf_step (w : World) (r : Freqs) (s : SDR) : Freqs :=
  if s.type_ == "airspy" then { r with f1090 := s.serialVal w }
  else if s.type_ == "rtlsdr" then
    if s.serialVal w == some "1090" || s.serialVal w == some "00001090" then
      { r with f1090 := s.serialVal w }
    else if s.serialVal w == some "978" || s.serialVal w == some "00000978" then
      { r with f978 := s.serialVal w }
    else r
  else r

/-- The heuristic core of `SDRDevices.addresses_per_frequency` (sdr.py lines
132-143) on the registry's device list: the single pass above, then the
lone-device fallback — if neither entry is truthy and exactly one device was
detected, that device's serial is assigned to 1090. -/
def addresses_per_frequency (w : World) (sdrs : List SDR) : Freqs :=
  let ret := sdrs.foldl (apf_step w) ⟨some "", some ""⟩
  if !pyTruthy ret.f1090 && !pyTruthy ret.f978 then
    match sdrs with
    | [s] => { ret with f1090 := s.serialVal w }
    | _ => ret
  else ret

/-- The full `addresses_per_frequency` property (sdr.py lines 124-143):
`_ensure_populated` first, then the heuristic over the refreshed list. -/
def addresses_per_frequency_prop (w : World) (now₁ now₂ : ℤ) (st : SDRDevices) :
    Freqs × SDRDevices :=
  let st' := st.ensure_populated w now₁ now₂
  (addresses_per_frequency w st'.sdrs, st')

/-- The override loop of `app.py:sdr_info` (lines 231-245).  `Modelled from
the spec` in part: the `Constants`/`Env` configuration layer is not among the
sources, so per the spec ("the external configuration layer may supply, per
role, a previously stored serial string; when non-empty it replaces the
heuristic's entry") each role's stored override is an `Option String`
(`none` = no stored setting).  The `src` part is the loop itself: a present
setting whose value is non-empty replaces the heuristic's entry. -/
def sdr_info_frequencies (heur : Freqs) (ov1090 ov978 : Option String) : Freqs :=
  let r1 :=
    match ov1090 with
    | some v => if v != "" then { heur with f1090 := some v } else heur
    | none => heur
  match ov978 with
  | some v => if v != "" then { r1 with f978 := some v } else r1
  | none => r1

/-- The last `iSerial` match over a list of lines, if any. -/
def lastISerial : List String → Option String
  | [] => none
  | l :: ls =>
    match lastISerial ls with
    | some v => some v
    | none => iSerialGroup l

/- Concrete fixtures used by counterexamples and witnesses. -/

/-- A world whose commands all succeed with empty output; devices used with
it carry pre-resolved (cached) serials. -/
def wOk : World := ⟨.ok "", fun _ => .ok ""⟩

/-- A world whose `lsusb` listing command raises. -/
def wErr : World := ⟨.error (), fun _ => .error ()⟩

/-- An airspy whose probe resolved to serial `"A"`. -/
def airspyA : SDR := ⟨"airspy", "001:002", some "A"⟩

/-- An rtlsdr whose probe resolved to serial `"1090"`. -/
def rtl1090 : SDR := ⟨"rtlsdr", "001:003", some "1090"⟩

/-- An rtlsdr whose probe resolved to serial `"978"`. -/
def rtl978 : SDR := ⟨"rtlsdr", "001:004", some "978"⟩

/-- A fresh (never probed) rtlsdr. -/
def rtlFresh : SDR := ⟨"rtlsdr", "001:005", none⟩

/-- A fresh (never probed) sdrplay. -/
def sdrplayFresh : SDR := ⟨"sdrplay", "001:006", none⟩

/-- A verbose-query output with no `iSerial` line. -/
def noSerialOut : Except Unit String := .ok "Device Descriptor:"

/-- A registry already holding one device (for the failing-refresh cases). -/
def stPre : SDRDevices := ⟨[rtl978], [], 0⟩

/-- A listing with two rtlsdr dongles. -/
def twoRtlText : String :=
  "Bus 001 Device 002: ID 0bda:2838 Realtek\nBus 001 Device 003: ID 0bda:2838 Realtek"

/-- A world where the listing shows two rtlsdr dongles and every verbose
query reports serial `1090`. -/
def wTwo : World := ⟨.ok twoRtlText, fun _ => .ok "  iSerial                 3 1090"⟩

/-! ### Supporting lemmas -/

/-- The probe scan is "last match wins": folding `probe_upd` over the lines
yields the stripped last `iSerial` capture, or the initial cache value when
no line matches. -/
theorem probe_fold_eq (lines : List String) (init : Option String) :
    lines.foldl probe_upd init =
      match lastISerial lines with
      | some v => some (pyStrip v)
      | none => init := by
  induction lines generalizing init with
  | nil => rfl
  | cons x xs ih =>
    rw [List.foldl_cons, ih]
    simp only [lastISerial]
    cases h : lastISerial xs with
    | some v => rfl
    | none =>
      simp only [probe_upd]

/-- Re-running the probe scan from its own result does not change it. -/
theorem probe_fold_idem (lines : List String) (init : Option String) :
    lines.foldl probe_upd (lines.foldl probe_upd init) = lines.foldl probe_upd init := by
  have h1 := probe_fold_eq lines init
  have h2 := probe_fold_eq lines (lines.foldl probe_upd init)
  cases h : lastISerial lines with
  | none =>
    rw [h] at h2
    exact h2
  | some v =>
    rw [h] at h1 h2
    exact h2.trans h1.symm

/-- One `_serial` read on a device with falsy cache and a succeeding query,
written out: the scan result is stored, and the returned value is the
placeholder exactly when the result is falsy on an sdrplay device. -/
theorem serialStep_mk_ok (t a : String) (p : Option String) (output : String)
    (h0 : pyTruthy p = false) :
    (SDR.mk t a p).serialStep (Except.ok output) =
      if !pyTruthy ((pySplitlines output).foldl probe_upd p) && t == "sdrplay" then
        (some "SDRplay w/o serial",
          SDR.mk t a ((pySplitlines output).foldl probe_upd p), true)
      else
        ((pySplitlines output).foldl probe_upd p,
          SDR.mk t a ((pySplitlines output).foldl probe_upd p), true) := by
  unfold SDR.serialStep
  dsimp only
  rw [h0]
  rfl

/-- On a raised listing command, `get_sdr_info` leaves the registry state
entirely unchanged (the early `return` of sdr.py line 76). -/
theorem get_sdr_info_error (w : World) (st : SDRDevices) (h : w.lsusb = .error ()) :
    st.get_sdr_info w = st := by
  unfold SDRDevices.get_sdr_info
  rw [h]

/-- Membership in a Python-set-style insert. -/
theorem mem_set_add {l : List (Option String)} {x t : Option String} :
    t ∈ set_add l x ↔ t ∈ l ∨ t = x := by
  unfold set_add
  by_cases h : x ∈ l
  · rw [if_pos h]
    constructor
    · exact Or.inl
    · rintro (ht | rfl)
      · exact ht
      · exact h
  · rw [if_neg h]
    simp

/-- Membership is a positive occurrence count. -/
theorem mem_iff_countOcc {t : Option String} :
    ∀ {l : List (Option String)}, t ∈ l ↔ 1 ≤ countOcc t l := by
  intro l
  induction l with
  | nil => simp [countOcc]
  | cons x xs ih =>
    by_cases hx : x = t
    · subst hx
      simp [countOcc, ih]
    · have : ¬ t = x := fun h => hx h.symm
      simp [countOcc, hx, this, ih]

/-- Invariant of the duplicate scan: a serial lands in the duplicates set
iff it was already a duplicate, or was already seen and occurs again, or
occurs at least twice in the remaining input. -/
theorem dup_scan_aux (l : List (Option String)) :
    ∀ (found dups : List (Option String)) (t : Option String),
      t ∈ (l.foldl dup_step (found, dups)).2 ↔
        t ∈ dups ∨ (t ∈ found ∧ t ∈ l) ∨ 2 ≤ countOcc t l := by
  induction l with
  | nil =>
    intro found dups t
    simp [countOcc]
  | cons x xs ih =>
    intro found dups t
    rw [List.foldl_cons]
    by_cases hx : x ∈ found
    · rw [show dup_step (found, dups) x = (found, set_add dups x) by
        simp [dup_step, hx]]
      rw [ih]
      rw [mem_set_add]
      by_cases ht : t = x
      · subst ht
        simp [hx, countOcc]
      · have hne : ¬ x = t := fun h => ht h.symm
        simp only [countOcc, if_neg hne, Nat.zero_add, List.mem_cons, ht, false_or]
        tauto
    · rw [show dup_step (found, dups) x = (set_add found x, dups) by
        simp [dup_step, hx]]
      rw [ih]
      by_cases ht : t = x
      · subst ht
        have hcnt : countOcc t (t :: xs) = 1 + countOcc t xs := by
          simp [countOcc]
        rw [hcnt]
        have hxs := @mem_iff_countOcc t xs
        constructor
        · rintro (hd | ⟨_, hmem⟩ | h2)
          · exact Or.inl hd
          · have hc1 := hxs.mp hmem
            exact Or.inr (Or.inr (by omega))
          · exact Or.inr (Or.inr (by omega))
        · rintro (hd | ⟨hf, _⟩ | h2)
          · exact Or.inl hd
          · exact absurd hf hx
          · have hmem : t ∈ xs := hxs.mpr (by omega)
            exact Or.inr (Or.inl ⟨mem_set_add.mpr (Or.inr rfl), hmem⟩)
      · have hne : ¬ x = t := fun h => ht h.symm
        simp only [mem_set_add, countOcc, if_neg hne, Nat.zero_add, List.mem_cons, ht,
          false_or]
        tauto

/-- The duplicates set of the scan holds exactly the serials occurring more
than once. -/
theorem dup_scan_mem (l : List (Option String)) (t : Option String) :
    t ∈ dup_scan l ↔ 2 ≤ countOcc t l := by
  unfold dup_scan
  rw [dup_scan_aux]
  simp

/-- A fold preserves any invariant its step preserves. -/
theorem foldl_preserves {α β : Type} {P : α → Prop} (f : α → β → α)
    (hstep : ∀ a b, P a → P (f a b)) :
    ∀ (l : List β) (a : α), P a → P (l.foldl f a) := by
  intro l
  induction l with
  | nil => intro a h; exact h
  | cons x xs ih =>
    intro a h
    rw [List.foldl_cons]
    exact ih _ (hstep a x h)

/-- The guarded append of `get_sdr_info` preserves pairwise inequality of
the collected devices. -/
theorem consider_pairwise (w : World) (c : SDR) (l : List SDR)
    (h : l.Pairwise (fun a b => sdrBEq w a b = false)) :
    (consider w l c).Pairwise (fun a b => sdrBEq w a b = false) := by
  unfold consider
  by_cases hm : l.any (fun x => sdrBEq w x c) = true
  · rw [if_pos hm]
    exact h
  · rw [if_neg hm]
    rw [List.pairwise_append]
    refine ⟨h, List.pairwise_singleton _ _, ?_⟩
    intro a ha b hb
    rw [List.mem_singleton] at hb
    subst hb
    cases hab : sdrBEq w a b with
    | false => rfl
    | true => exact absurd (List.any_eq_true.mpr ⟨a, ha, hab⟩) hm

/-- One line/identifier step of the enumeration preserves pairwise
inequality. -/
theorem scan_line_pairwise (w : World) (line pidvid : String) (l : List SDR)
    (h : l.Pairwise (fun a b => sdrBEq w a b = false)) :
    (scan_line w l line pidvid).Pairwise (fun a b => sdrBEq w a b = false) := by
  unfold scan_line
  by_cases ha : get_address_for_pid_vid pidvid line = ""
  · simp only [ha, if_pos rfl]
    exact h
  · simp only [if_neg ha]
    exact consider_pairwise w _ l h

/-- The heuristic on a one-element registry: an rtlsdr with a 978-serial is
assigned to 978 and leaves 1090 empty; every other lone device ends up with
its serial under 1090 (directly, or via the lone-device fallback). -/
theorem apf_single (w : World) (d : SDR) :
    addresses_per_frequency w [d] =
      if (d.type_ == "rtlsdr") &&
          (d.serialVal w == some "978" || d.serialVal w == some "00000978") then
        ⟨some "", d.serialVal w⟩
      else ⟨d.serialVal w, some ""⟩ := by
  unfold addresses_per_frequency
  simp only [List.foldl_cons, List.foldl_nil]
  unfold apf_step
  by_cases h1 : (d.type_ == "airspy") = true
  · have hne : (d.type_ == "rtlsdr") = false := by
      rw [beq_iff_eq] at h1
      rw [h1]
      rfl
    simp only [if_pos h1, hne, Bool.false_and, Bool.false_eq_true, if_false]
    cases hp : pyTruthy (d.serialVal w) <;> simp [hp, pyTruthy]
  · by_cases h2 : (d.type_ == "rtlsdr") = true
    · simp only [if_neg h1, if_pos h2, h2, Bool.true_and]
      by_cases h3 : (d.serialVal w == some "1090" || d.serialVal w == some "00001090") = true
      · rcases Bool.or_eq_true_iff.mp h3 with hs | hs <;>
          rw [beq_iff_eq] at hs <;>
          simp [h3, hs, pyTruthy]
      · by_cases h4 :
            (d.serialVal w == some "978" || d.serialVal w == some "00000978") = true
        · rcases Bool.or_eq_true_iff.mp h4 with hs | hs <;>
            rw [beq_iff_eq] at hs <;>
            simp [h3, h4, hs, pyTruthy]
        · simp only [if_neg h3, if_neg h4, Bool.not_eq_true] at *
          simp [h4, pyTruthy]
    · simp only [if_neg h1, if_neg h2, Bool.not_eq_true] at *
      simp [h2, pyTruthy]

/-- C1: the spec claims an airspy always owns the final 1090 entry, with
strict priority over rule-2 rtlsdr matches.  Evaluating the assigner on an
airspy (serial `"A"`) followed by an rtlsdr with serial `"1090"` yields
`1090 ↦ "1090"`: the single pass lets the later rule-2 match overwrite the
airspy, while `"A"` is the only airspy serial in the list — contradicting
the claim and the source's own comment ("unless you have an airspy"). -/
theorem c1_airspy_overwritten_by_later_rtl :
    addresses_per_frequency wOk [airspyA, rtl1090] = ⟨some "1090", some ""⟩ ∧
      ([airspyA, rtl1090].filter (fun s => s.type_ == "airspy")).map (SDR.serialVal wOk)
        = [some "A"] ∧
      (some "1090" : Option String) ≠ some "A" :=
  ⟨by decide, by decide, by decide⟩

/-- C2 counterexample: a registry with exactly one detected device — an
rtlsdr whose serial is `"978"` — yields `{1090: "", 978: "978"}`, not the
claimed `{1090: "978", 978: ""}`. -/
theorem c2_counterexample :
    addresses_per_frequency wOk [rtl978] = ⟨some "", some "978"⟩ ∧
      SDR.serialVal wOk rtl978 = some "978" ∧
      Freqs.mk (some "") (some "978") ≠ Freqs.mk (some "978") (some "") :=
  ⟨by decide, by decide, by decide⟩

/-- C2 (amended): with exactly one detected device, 1090 maps to that
device's serial and 978 stays empty — unless the device is an rtlsdr whose
serial is `"978"`/`"00000978"`, in which case 978 gets the serial and 1090
stays empty. -/
theorem c2_single_device_default (w : World) (d : SDR) :
    (¬ (d.type_ = "rtlsdr" ∧
          (d.serialVal w = some "978" ∨ d.serialVal w = some "00000978")) →
        addresses_per_frequency w [d] = ⟨d.serialVal w, some ""⟩) ∧
      (d.type_ = "rtlsdr" →
        (d.serialVal w = some "978" ∨ d.serialVal w = some "00000978") →
        addresses_per_frequency w [d] = ⟨some "", d.serialVal w⟩) := by
  constructor
  · intro hnot
    rw [apf_single]
    have hcond : ((d.type_ == "rtlsdr") &&
        (d.serialVal w == some "978" || d.serialVal w == some "00000978")) = false := by
      cases htype : (d.type_ == "rtlsdr") with
      | false => rfl
      | true =>
        cases hser : (d.serialVal w == some "978" || d.serialVal w == some "00000978") with
        | false => rfl
        | true =>
          refine absurd ⟨beq_iff_eq.mp htype, ?_⟩ hnot
          rcases Bool.or_eq_true_iff.mp hser with hs | hs
          · exact Or.inl (beq_iff_eq.mp hs)
          · exact Or.inr (beq_iff_eq.mp hs)
    rw [hcond]
    rfl
  · intro htype hser
    rw [apf_single]
    have hcond : ((d.type_ == "rtlsdr") &&
        (d.serialVal w == some "978" || d.serialVal w == some "00000978")) = true := by
      rcases hser with hs | hs <;> simp [htype, hs]
    rw [hcond]
    rfl

/-- C2 witness: the amended theorem applied to a lone rtlsdr with serial
`"1090"` (default branch) and to a lone rtlsdr with serial `"978"`
(978 branch). -/
theorem c2_witness :
    (¬ (rtl1090.type_ = "rtlsdr" ∧
          (SDR.serialVal wOk rtl1090 = some "978" ∨
            SDR.serialVal wOk rtl1090 = some "00000978"))) ∧
      addresses_per_frequency wOk [rtl1090] = ⟨SDR.serialVal wOk rtl1090, some ""⟩ ∧
      rtl978.type_ = "rtlsdr" ∧
      (SDR.serialVal wOk rtl978 = some "978" ∨
        SDR.serialVal wOk rtl978 = some "00000978") ∧
      addresses_per_frequency wOk [rtl978] = ⟨some "", SDR.serialVal wOk rtl978⟩ :=
  ⟨by decide, (c2_single_device_default wOk rtl1090).1 (by decide), by decide, by decide,
    (c2_single_device_default wOk rtl978).2 (by decide) (by decide)⟩

/-- C3 counterexample: when the listing command raises over a registry that
already holds a device, `get_sdr_info` serves the previous, non-empty list —
the claimed "yields an empty device list" is false. -/
theorem c3_counterexample :
    SDRDevices.get_sdr_info wErr stPre = stPre ∧ stPre.sdrs = [rtl978] ∧
      ([rtl978] : List SDR) ≠ [] :=
  ⟨by decide, by decide, by decide⟩

/-- C3 (amended): if the listing command raises, the enumeration returns
without raising and without touching the stored state — the previous device
list (empty only on a never-populated registry) is served unchanged. -/
theorem c3_error_keeps_previous_state (w : World) (st : SDRDevices)
    (h : w.lsusb = .error ()) :
    st.get_sdr_info w = st :=
  get_sdr_info_error w st h

/-- C3 witness: the amended theorem at the raising world over the fresh
registry, whose stored list happens to be empty. -/
theorem c3_witness :
    wErr.lsusb = Except.error () ∧
      SDRDevices.get_sdr_info wErr SDRDevices.init = SDRDevices.init :=
  ⟨rfl, c3_error_keeps_previous_state wErr SDRDevices.init rfl⟩

/-- C5: with a verbose query output containing no `iSerial` line, the probe
returns the fixed placeholder for an sdrplay device, but returns Python
`None` — not the empty string the claim (and the function's `-> str`
annotation) promises — for any other device kind. -/
theorem c5_no_marker_line_evaluation :
    (sdrplayFresh.serialStep noSerialOut).1 = some "SDRplay w/o serial" ∧
      (rtlFresh.serialStep noSerialOut).1 = none ∧
      (none : Option String) ≠ some "" :=
  ⟨by decide, by decide, by decide⟩

/-- C6: within the 5-second TTL window, `_ensure_populated` is a no-op — the
device list, duplicates set and timestamp are all unchanged (the state is
literally equal), so a re-query of the assigner gives an identical result. -/
theorem c6_ttl_within_window_noop (w : World) (now₁ now₂ : ℤ) (st : SDRDevices)
    (h : now₁ - st.last_check < 5) :
    st.ensure_populated w now₁ now₂ = st ∧
      addresses_per_frequency w (st.ensure_populated w now₁ now₂).sdrs =
        addresses_per_frequency w st.sdrs := by
  have he : st.ensure_populated w now₁ now₂ = st := by
    unfold SDRDevices.ensure_populated
    rw [if_pos h]
  exact ⟨he, by rw [he]⟩

/-- C6 witness: the no-op at a registry refreshed 3 seconds ago. -/
theorem c6_witness :
    (3 : ℤ) - stPre.last_check < 5 ∧ stPre.ensure_populated wOk 3 4 = stPre :=
  ⟨by decide, (c6_ttl_within_window_noop wOk 3 4 stPre (by decide)).1⟩

/-- C4 counterexample: a fresh rtlsdr whose verbose query reports no serial:
the first read produces the (empty) result `None`, yet the second read
invokes the external query command again — the probe result is not memoized
for falsy values, contradicting the claim's "including the empty result". -/
theorem c4_counterexample :
    (rtlFresh.serialStep noSerialOut).1 = none ∧
      ((rtlFresh.serialStep noSerialOut).2.1.serialStep noSerialOut).2.2 = true :=
  ⟨by decide, by decide⟩

/-- C4 (amended): a second read always returns the same value as the first
(value-level idempotence for a fixed query result); and whenever the first
read left a truthy cached serial, the second read returns without invoking
the query command and without changing the instance.  Falsy results (`None`,
`""`, and the sdrplay placeholder path, which caches nothing truthy) re-run
the query on every read. -/
theorem c4_truthy_results_memoized (s : SDR) (q : Except Unit String) :
    ((s.serialStep q).2.1.serialStep q).1 = (s.serialStep q).1 ∧
      (pyTruthy (s.serialStep q).2.1.serialProbed = true →
        ((s.serialStep q).2.1.serialStep q).2.2 = false ∧
          ((s.serialStep q).2.1.serialStep q).2.1 = (s.serialStep q).2.1) := by
  obtain ⟨t, a, p⟩ := s
  by_cases h0 : pyTruthy p = true
  · constructor
    · simp [SDR.serialStep, h0]
    · intro _
      simp [SDR.serialStep, h0]
  · have h0' : pyTruthy p = false := by
      rwa [Bool.not_eq_true] at h0
    cases q with
    | error e =>
      constructor
      · simp [SDR.serialStep, h0']
      · intro htr
        simp [SDR.serialStep, h0'] at htr
    | ok output =>
      have hidem := probe_fold_idem (pySplitlines output) p
      have hfix := serialStep_mk_ok t a p output h0'
      have hfix2 := serialStep_mk_ok t a ((pySplitlines output).foldl probe_upd p) output
      by_cases hc : (!pyTruthy ((pySplitlines output).foldl probe_upd p)
          && t == "sdrplay") = true
      · -- placeholder branch: the cached value is the falsy scan result
        have h1' : pyTruthy ((pySplitlines output).foldl probe_upd p) = false := by
          rcases Bool.and_eq_true_iff.mp hc with ⟨hnot, _⟩
          rwa [Bool.not_eq_true'] at hnot
        rw [if_pos hc] at hfix
        have hsnd := hfix2 h1'
        rw [hidem, if_pos hc] at hsnd
        refine ⟨?_, ?_⟩
        · rw [hfix]
          dsimp only
          rw [hsnd]
        · intro htr
          rw [hfix] at htr
          dsimp only at htr
          rw [h1'] at htr
          cases htr
      · rw [if_neg (by simpa using hc)] at hfix
        by_cases h1 : pyTruthy ((pySplitlines output).foldl probe_upd p) = true
        · -- truthy scan result: the second read is a pure cache hit
          refine ⟨?_, fun _ => ⟨?_, ?_⟩⟩ <;>
            · rw [hfix]
              dsimp only
              simp [SDR.serialStep, h1]
        · have h1' : pyTruthy ((pySplitlines output).foldl probe_upd p) = false := by
            rwa [Bool.not_eq_true] at h1
          have hsnd := hfix2 h1'
          rw [hidem, if_neg (by simpa using hc)] at hsnd
          refine ⟨?_, ?_⟩
          · rw [hfix]
            dsimp only
            rw [hsnd]
          · intro htr
            rw [hfix] at htr
            dsimp only at htr
            rw [h1'] at htr
            cases htr

/-- C4 witness: after probing a query output that does report a serial, the
cached value is truthy and the second read neither re-invokes the command
nor changes the instance. -/
theorem c4_witness :
    pyTruthy ((rtlFresh.serialStep (Except.ok " iSerial 3 XYZ")).2.1.serialProbed) = true ∧
      ((rtlFresh.serialStep (Except.ok " iSerial 3 XYZ")).2.1.serialStep
          (Except.ok " iSerial 3 XYZ")).2.2 = false :=
  ⟨by decide,
    ((c4_truthy_results_memoized rtlFresh (Except.ok " iSerial 3 XYZ")).2 (by decide)).1⟩

/-- C7: after a successful refresh, a serial value sits in the duplicates
set exactly when more than one device of the stored list resolves to it. -/
theorem c7_duplicates_iff_seen_twice (w : World) (st : SDRDevices) (text : String)
    (h : w.lsusb = .ok text) (ser : Option String) :
    ser ∈ (st.get_sdr_info w).duplicates ↔
      2 ≤ countOcc ser ((st.get_sdr_info w).sdrs.map (SDR.serialVal w)) := by
  unfold SDRDevices.get_sdr_info
  rw [h]
  exact dup_scan_mem _ _

/-- C7 witness: two rtlsdr dongles both resolving to serial `"1090"`: the
duplicates set contains `"1090"`, and the 1090 role still carries the single
deterministic serial `"1090"`. -/
theorem c7_witness :
    wTwo.lsusb = Except.ok twoRtlText ∧
      some "1090" ∈ (SDRDevices.init.get_sdr_info wTwo).duplicates ∧
      addresses_per_frequency wTwo (SDRDevices.init.get_sdr_info wTwo).sdrs =
        ⟨some "1090", some ""⟩ :=
  ⟨rfl,
    (c7_duplicates_iff_seen_twice wTwo SDRDevices.init twoRtlText rfl (some "1090")).mpr
      (by decide),
    by decide⟩

/-- C8: for every raw listing text the enumeration never collects two
devices that are equal in the sense of `SDR.__eq__`; and that equality holds
exactly when type, address and resolved serial all coincide. -/
theorem c8_enumeration_no_equal_pair (w : World) (text : String) :
    (enumerate_sdrs w text).Pairwise (fun a b => sdrBEq w a b = false) ∧
      ∀ a b : SDR, sdrBEq w a b = true ↔
        a.type_ = b.type_ ∧ a.address = b.address ∧ a.serialVal w = b.serialVal w := by
  constructor
  · unfold enumerate_sdrs
    exact foldl_preserves _
      (fun l line hl =>
        foldl_preserves _ (fun l2 pv h2 => scan_line_pairwise w line pv l2 h2) pidvids l hl)
      (pySplitlines text) [] List.Pairwise.nil
  · intro a b
    unfold sdrBEq
    simp [and_assoc]

/-- C9: for every heuristic mapping and role, a present non-empty stored
override replaces the heuristic's entry in the returned mapping, while an
empty or absent override leaves the heuristic's entry untouched. -/
theorem c9_override_replaces_heuristic (heur : Freqs) (ov1090 ov978 : Option String) :
    (pyTruthy ov1090 = true →
      (sdr_info_frequencies heur ov1090 ov978).f1090 = ov1090) ∧
      (pyTruthy ov1090 = false →
        (sdr_info_frequencies heur ov1090 ov978).f1090 = heur.f1090) ∧
      (pyTruthy ov978 = true →
        (sdr_info_frequencies heur ov1090 ov978).f978 = ov978) ∧
      (pyTruthy ov978 = false →
        (sdr_info_frequencies heur ov1090 ov978).f978 = heur.f978) := by
  cases ov1090 with
  | none =>
    cases ov978 with
    | none => simp [sdr_info_frequencies, pyTruthy]
    | some u =>
      by_cases hu : (u != "") = true <;>
        simp [sdr_info_frequencies, pyTruthy, hu]
  | some v =>
    cases ov978 with
    | none =>
      by_cases hv : (v != "") = true <;>
        simp [sdr_info_frequencies, pyTruthy, hv]
    | some u =>
      by_cases hv : (v != "") = true <;>
        by_cases hu : (u != "") = true <;>
        simp [sdr_info_frequencies, pyTruthy, hv, hu]

/-- C9 witness: the override layer at a heuristic `{1090: "x", 978: "y"}`
with no stored 1090 override and the stored 978 override `"AA11"`. -/
theorem c9_witness :
    pyTruthy (some "AA11") = true ∧ pyTruthy (none : Option String) = false ∧
      (sdr_info_frequencies ⟨some "x", some "y"⟩ none (some "AA11")).f978 = some "AA11" ∧
      (sdr_info_frequencies ⟨some "x", some "y"⟩ none (some "AA11")).f1090 = some "x" :=
  ⟨by decide, by decide,
    (c9_override_replaces_heuristic ⟨some "x", some "y"⟩ none (some "AA11")).2.2.1
      (by decide),
    (c9_override_replaces_heuristic ⟨some "x", some "y"⟩ none (some "AA11")).2.1
      (by decide)⟩

/-- C10: when the listing command raises during a due refresh, the stored
device list and duplicates set stay exactly as they were, while the
last-refresh timestamp is still advanced to now — so every further call
within 5 seconds of it is a no-op. -/
theorem c10_failed_refresh_keeps_stale_data (w : World) (st : SDRDevices)
    (now₁ now₂ : ℤ) (hw : w.lsusb = .error ())
    (h5 : ¬ (now₁ - st.last_check < 5)) :
    (st.ensure_populated w now₁ now₂).sdrs = st.sdrs ∧
      (st.ensure_populated w now₁ now₂).duplicates = st.duplicates ∧
      (st.ensure_populated w now₁ now₂).last_check = now₂ ∧
      ∀ now₃ now₄ : ℤ, now₃ - now₂ < 5 →
        (st.ensure_populated w now₁ now₂).ensure_populated w now₃ now₄ =
          st.ensure_populated w now₁ now₂ := by
  have he : st.ensure_populated w now₁ now₂ = { st with last_check := now₂ } := by
    unfold SDRDevices.ensure_populated
    rw [if_neg h5, get_sdr_info_error w st hw]
  refine ⟨by rw [he], by rw [he], by rw [he], ?_⟩
  intro now₃ now₄ h3
  rw [he]
  unfold SDRDevices.ensure_populated
  rw [if_pos h3]

/-- C10 witness: a due refresh (10 s after the epoch timestamp) against the
raising world over a populated registry, then a follow-up call 1 s later. -/
theorem c10_witness :
    wErr.lsusb = Except.error () ∧ ¬ ((10 : ℤ) - stPre.last_check < 5) ∧
      (stPre.ensure_populated wErr 10 11).sdrs = stPre.sdrs ∧
      (stPre.ensure_populated wErr 10 11).duplicates = stPre.duplicates ∧
      (stPre.ensure_populated wErr 10 11).last_check = 11 ∧
      (stPre.ensure_populated wErr 10 11).ensure_populated wErr 12 13 =
        stPre.ensure_populated wErr 10 11 :=
  ⟨rfl, by decide,
    (c10_failed_refresh_keeps_stale_data wErr stPre 10 11 rfl (by decide)).1,
    (c10_failed_refresh_keeps_stale_data wErr stPre 10 11 rfl (by decide)).2.1,
    (c10_failed_refresh_keeps_stale_data wErr stPre 10 11 rfl (by decide)).2.2.1,
    (c10_failed_refresh_keeps_stale_data wErr stPre 10 11 rfl (by decide)).2.2.2 12 13
      (by decide)⟩
